/-
Verification of the go-whatsapp webhook dispatcher and outbound client.

This file gives a shallow embedding of the relevant parts of the repository:

* the byte-level HMAC-SHA256 signature check used by
  `Client.VerifyWebhookSignature` (pkg/client/client.go),
* the webhook HTTP handlers `handleVerification` / `handleWebhook` and the
  dispatch pipeline `processPayload` / `processMessage` / `processStatus`
  (pkg/webhook/handler.go), modelled as functions producing the ordered
  trace of handler invocations,
* the outbound send operations `SendText`, `SendLocation`,
  `SendInteractiveButtons`, `SendInteractiveList` and the shared
  `sendMessage` gate (pkg/client/messages.go), modelled as functions
  returning either a validation error or the constructed request handed to
  the network layer.

Byte strings are `List Nat` (each element a byte value); machine words are
`Nat` reduced modulo 2^32 where the source wraps.
-/
import Mathlib

namespace GoWhatsapp

/-! ## 32-bit word arithmetic (crypto/sha256 operates on uint32) -/

/-- Reduce a natural number to a 32-bit word. -/
def w32 (x : Nat) : Nat := x % 4294967296

/-- Rotate a 32-bit word right by `n` bits. -/
def rotr32 (n x : Nat) : Nat := w32 ((x >>> n) ||| (x <<< (32 - n)))

/-- SHA-256 small sigma 0: used in the message schedule. -/
def smallSigma0 (x : Nat) : Nat := (rotr32 7 x) ^^^ (rotr32 18 x) ^^^ (x >>> 3)

/-- SHA-256 small sigma 1: used in the message schedule. -/
def smallSigma1 (x : Nat) : Nat := (rotr32 17 x) ^^^ (rotr32 19 x) ^^^ (x >>> 10)

/-- SHA-256 big sigma 0: used in the compression function. -/
def bigSigma0 (x : Nat) : Nat := (rotr32 2 x) ^^^ (rotr32 13 x) ^^^ (rotr32 22 x)

/-- SHA-256 big sigma 1: used in the compression function. -/
def bigSigma1 (x : Nat) : Nat := (rotr32 6 x) ^^^ (rotr32 11 x) ^^^ (rotr32 25 x)

/-- The 64 SHA-256 round constants (decimal values of the standard table). -/
def sha256K : List Nat :=
  [1116352408, 1899447441, 3049323471, 3921009573, 961987163,
   1508970993, 2453635748, 2870763221, 3624381080, 310598401,
   607225278, 1426881987, 1925078388, 2162078206, 2614888103,
   3248222580, 3835390401, 4022224774, 264347078, 604807628,
   770255983, 1249150122, 1555081692, 1996064986, 2554220882,
   2821834349, 2952996808, 3210313671, 3336571891, 3584528711,
   113926993, 338241895, 666307205, 773529912, 1294757372,
   1396182291, 1695183700, 1986661051, 2177026350, 2456956037,
   2730485921, 2820302411, 3259730800, 3345764771, 3516065817,
   3600352804, 4094571909, 275423344, 430227734, 506948616,
   659060556, 883997877, 958139571, 1322822218, 1537002063,
   1747873779, 1955562222, 2024104815, 2227730452, 2361852424,
   2428436474, 2756734187, 3204031479, 3329325298]

/-- The SHA-256 initial hash state (decimal values of the standard table). -/
def sha256H0 : List Nat :=
  [1779033703, 3144134277, 1013904242, 2773480762,
   1359893119, 2600822924, 528734635, 1541459225]

/-- Append the SHA-256 padding (0x80, zeros, 64-bit big-endian bit length)
to a byte string, yielding a whole number of 64-byte blocks. -/
def sha256Pad (msg : List Nat) : List Nat :=
  let len := msg.length
  let zeros := (120 - (len + 1) % 64) % 64
  let bitLen := len * 8
  msg ++ [128] ++ List.replicate zeros 0 ++
    [bitLen >>> 56 % 256, bitLen >>> 48 % 256, bitLen >>> 40 % 256,
     bitLen >>> 32 % 256, bitLen >>> 24 % 256, bitLen >>> 16 % 256,
     bitLen >>> 8 % 256, bitLen % 256]

/-- Group a padded byte string into big-endian 32-bit words. -/
def toWords : List Nat → List Nat
  | a :: b :: c :: d :: rest => (((a * 256 + b) * 256 + c) * 256 + d) :: toWords rest
  | _ => []

/-- One step of the SHA-256 message-schedule extension: append the next word
computed from the last sixteen. -/
def scheduleStep (ws : List Nat) : List Nat :=
  let n := ws.length
  ws ++ [w32 (smallSigma1 (ws.getD (n - 2) 0) + ws.getD (n - 7) 0 +
              smallSigma0 (ws.getD (n - 15) 0) + ws.getD (n - 16) 0)]

/-- Extend a 16-word block to the full 64-word SHA-256 message schedule. -/
def schedule (block : List Nat) : List Nat :=
  (List.range 48).foldl (fun acc _ => scheduleStep acc) block

/-- One SHA-256 compression round on the eight-word working state. -/
def compressRound (st : List Nat) (kw : Nat × Nat) : List Nat :=
  match st with
  | [a, b, c, d, e, f, g, h] =>
    let ch := (e &&& f) ^^^ ((e ^^^ 4294967295) &&& g)
    let maj := (a &&& b) ^^^ (a &&& c) ^^^ (b &&& c)
    let t1 := w32 (h + bigSigma1 e + ch + kw.1 + kw.2)
    let t2 := w32 (bigSigma0 a + maj)
    [w32 (t1 + t2), a, b, c, w32 (d + t1), e, f, g]
  | other => other

/-- Compress one 16-word block into the running eight-word hash state. -/
def compressBlock (h : List Nat) (block : List Nat) : List Nat :=
  let st := (sha256K.zip (schedule block)).foldl compressRound h
  List.zipWith (fun x y => w32 (x + y)) h st

/-- Split a word list into 16-word blocks. -/
def chunkWords (ws : List Nat) : List (List Nat) :=
  if h : ws = [] then [] else ws.take 16 :: chunkWords (ws.drop 16)
termination_by ws.length
decreasing_by
  simp only [List.length_drop]
  have hlen : 0 < ws.length := List.length_pos.mpr h
  omega

/-- Serialize a 32-bit word as four big-endian bytes. -/
def wordBytes (w : Nat) : List Nat :=
  [w >>> 24 % 256, w >>> 16 % 256, w >>> 8 % 256, w % 256]

/-- SHA-256 of a byte string (the digest as 32 bytes). -/
def sha256 (msg : List Nat) : List Nat :=
  ((chunkWords (toWords (sha256Pad msg))).foldl compressBlock sha256H0).foldr
    (fun w acc => wordBytes w ++ acc) []

/-- ASCII code of the lowercase hex digit for a value below 16. -/
def hexDigit (n : Nat) : Nat := if n < 10 then 48 + n else 87 + n

/-- Lowercase hex encoding of a byte string, as ASCII bytes
(hex.EncodeToString). -/
def hexEncode (bs : List Nat) : List Nat :=
  bs.foldr (fun b acc => hexDigit (b / 16) :: hexDigit (b % 16) :: acc) []

/-- HMAC-SHA256 with the given key and message
(hmac.New(sha256.New, key) followed by Write and Sum). -/
def hmacSha256 (key msg : List Nat) : List Nat :=
  let k0 := if key.length > 64 then sha256 key else key
  let kpad := k0 ++ List.replicate (64 - k0.length) 0
  let ipadKey := kpad.map (fun b => b ^^^ 54)
  let opadKey := kpad.map (fun b => b ^^^ 92)
  sha256 (opadKey ++ sha256 (ipadKey ++ msg))

/-! ## Webhook signature verification (pkg/client/client.go) -/

/-- The ASCII bytes of the literal scheme tag stripped from the signature
header (the Go literal compared against signature[:7]). -/
def sigSchemeTag : List Nat := [115, 104, 97, 50, 53, 54, 61]

/-- Strip the scheme tag from a signature when it is present: the source
drops the first seven bytes when len(signature) > 7 and signature[:7]
equals the tag. -/
def normalizeSignature (signature : List Nat) : List Nat :=
  if signature.length > 7 ∧ signature.take 7 = sigSchemeTag then
    signature.drop 7
  else signature

/-- VerifyWebhookSignature: false when the app secret is empty; otherwise
compare the (tag-stripped) signature bytes against the lowercase hex
encoding of HMAC-SHA256(payload, appSecret). hmac.Equal is a
constant-time byte-slice equality, so it is byte-list equality here. -/
def verifyWebhookSignature (appSecret payload signature : List Nat) : Bool :=
  if appSecret = [] then false
  else
    let sig := normalizeSignature signature
    let expectedMAC := hexEncode (hmacSha256 appSecret payload)
    sig = expectedMAC

/-! ## Inbound data model (pkg/models, webhook section) -/

/-- ContactProfile: the profile of a webhook contact. -/
structure ContactProfile where
  name : String := ""
  deriving Repr, DecidableEq

/-- WebhookContact: correlates a wire address with a display name. -/
structure WebhookContact where
  waID : String := ""
  profile : ContactProfile := {}
  deriving Repr, DecidableEq

/-- WebhookMetadata: the phone-number metadata of a webhook value. -/
structure WebhookMetadata where
  displayPhoneNumber : String := ""
  phoneNumberID : String := ""
  deriving Repr, DecidableEq

/-- MessageContext: the context of a replied-to message. -/
structure MessageContext where
  from_ : String := ""
  id : String := ""
  forwarded : Bool := false
  deriving Repr, DecidableEq

/-- IncomingText: incoming text content. -/
structure IncomingText where
  body : String := ""
  deriving Repr, DecidableEq

/-- IncomingMedia: incoming media content (image, audio, video, sticker). -/
structure IncomingMedia where
  id : String := ""
  mimeType : String := ""
  sha256 : String := ""
  caption : String := ""
  deriving Repr, DecidableEq

/-- IncomingDocument: an incoming document. -/
structure IncomingDocument where
  id : String := ""
  mimeType : String := ""
  sha256 : String := ""
  filename : String := ""
  caption : String := ""
  deriving Repr, DecidableEq

/-- LocationContent: location message content. Coordinates are modelled as
rationals; the source uses float64 and only ever tests them against the
exact value zero. -/
structure LocationContent where
  latitude : ℚ := 0
  longitude : ℚ := 0
  name : String := ""
  address : String := ""
  deriving Repr, DecidableEq

/-- ContactName: a contact's name in a contacts message. -/
structure ContactName where
  formattedName : String := ""
  firstName : String := ""
  lastName : String := ""
  middleName : String := ""
  prefixPart : String := ""
  suffixPart : String := ""
  deriving Repr, DecidableEq

/-- ContactContent: one contact record in a contacts message. The nested
address/email/phone/url records are carried opaquely as rendered strings;
no code path under verification inspects them. -/
structure ContactContent where
  name : ContactName := {}
  birthday : String := ""
  addresses : List String := []
  emails : List String := []
  phones : List String := []
  urls : List String := []
  deriving Repr, DecidableEq

/-- InteractiveReply: a reply button (outbound) and the button_reply payload
of an incoming interactive message (the source uses one struct for both). -/
structure InteractiveReply where
  id : String := ""
  title : String := ""
  deriving Repr, DecidableEq

/-- InteractiveListReply: the list_reply payload of an incoming interactive
message. -/
structure InteractiveListReply where
  id : String := ""
  title : String := ""
  description : String := ""
  deriving Repr, DecidableEq

/-- IncomingInteractive: an interactive response, discriminated by `type`
(`button_reply` or `list_reply`). -/
structure IncomingInteractive where
  type : String := ""
  buttonReply : Option InteractiveReply := none
  listReply : Option InteractiveListReply := none
  deriving Repr, DecidableEq

/-- IncomingButton: a quick-reply button response. -/
structure IncomingButton where
  text : String := ""
  payload : String := ""
  deriving Repr, DecidableEq

/-- IncomingReaction: an incoming reaction. -/
structure IncomingReaction where
  messageID : String := ""
  emoji : String := ""
  deriving Repr, DecidableEq

/-- WebhookError: an upstream-reported error inside a webhook value. -/
structure WebhookError where
  code : Int := 0
  title : String := ""
  message : String := ""
  details : String := ""
  deriving Repr, DecidableEq

/-- IncomingMessage: tagged union over the inbound message-type space; the
`type` string declares which payload field should be populated. -/
structure IncomingMessage where
  id : String := ""
  from_ : String := ""
  timestamp : String := ""
  type : String := ""
  context : Option MessageContext := none
  errors : List WebhookError := []
  text : Option IncomingText := none
  image : Option IncomingMedia := none
  audio : Option IncomingMedia := none
  video : Option IncomingMedia := none
  document : Option IncomingDocument := none
  sticker : Option IncomingMedia := none
  location : Option LocationContent := none
  contacts : List ContactContent := []
  interactive : Option IncomingInteractive := none
  button : Option IncomingButton := none
  reaction : Option IncomingReaction := none
  deriving Repr, DecidableEq

/-- ConversationOrigin: the origin of a conversation. -/
structure ConversationOrigin where
  type : String := ""
  deriving Repr, DecidableEq

/-- Conversation: conversation metadata attached to a status update. -/
structure Conversation where
  id : String := ""
  origin : ConversationOrigin := {}
  expirationTimestamp : String := ""
  deriving Repr, DecidableEq

/-- Pricing: pricing metadata attached to a status update. -/
structure Pricing where
  pricingModel : String := ""
  billable : Bool := false
  category : String := ""
  deriving Repr, DecidableEq

/-- MessageStatusUpdate: one of sent/delivered/read/failed, with the original
message id and optional conversation/pricing metadata; errors are populated
upstream only for failed deliveries. -/
structure MessageStatusUpdate where
  id : String := ""
  status : String := ""
  timestamp : String := ""
  recipientID : String := ""
  conversation : Option Conversation := none
  pricing : Option Pricing := none
  errors : List WebhookError := []
  deriving Repr, DecidableEq

/-- WebhookValue: the actual webhook data inside one change. -/
structure WebhookValue where
  messagingProduct : String := ""
  metadata : WebhookMetadata := {}
  contacts : List WebhookContact := []
  messages : List IncomingMessage := []
  statuses : List MessageStatusUpdate := []
  errors : List WebhookError := []
  deriving Repr, DecidableEq

/-- WebhookChange: a change with its `field` discriminator. -/
structure WebhookChange where
  value : WebhookValue := {}
  field : String := ""
  deriving Repr, DecidableEq

/-- WebhookEntry: an entry in the webhook payload. -/
structure WebhookEntry where
  id : String := ""
  changes : List WebhookChange := []
  deriving Repr, DecidableEq

/-- WebhookPayload: root of an inbound callback. -/
structure WebhookPayload where
  object : String := ""
  entry : List WebhookEntry := []
  deriving Repr, DecidableEq

/-! ## Event types (pkg/webhook/handler.go) -/

/-- BaseMessageEvent: common fields for all message events. -/
structure BaseMessageEvent where
  messageID : String := ""
  from_ : String := ""
  contactName : String := ""
  timestamp : String := ""
  phoneNumber : String := ""
  phoneID : String := ""
  context : Option MessageContext := none
  deriving Repr, DecidableEq

/-- TextMessageEvent: emitted on a text message. -/
structure TextMessageEvent where
  base : BaseMessageEvent
  body : String
  deriving Repr, DecidableEq

/-- MediaMessageEvent: emitted on image/video/audio/sticker messages. -/
structure MediaMessageEvent where
  base : BaseMessageEvent
  mediaID : String := ""
  mimeType : String := ""
  sha256 : String := ""
  caption : String := ""
  deriving Repr, DecidableEq

/-- DocumentMessageEvent: emitted on a document message. -/
structure DocumentMessageEvent where
  base : BaseMessageEvent
  mediaID : String := ""
  mimeType : String := ""
  sha256 : String := ""
  filename : String := ""
  caption : String := ""
  deriving Repr, DecidableEq

/-- LocationMessageEvent: emitted on a location message. -/
structure LocationMessageEvent where
  base : BaseMessageEvent
  latitude : ℚ := 0
  longitude : ℚ := 0
  name : String := ""
  address : String := ""
  deriving Repr, DecidableEq

/-- ContactsMessageEvent: emitted on a contacts message. -/
structure ContactsMessageEvent where
  base : BaseMessageEvent
  contacts : List ContactContent := []
  deriving Repr, DecidableEq

/-- ButtonReplyEvent: emitted on an interactive button reply. -/
structure ButtonReplyEvent where
  base : BaseMessageEvent
  buttonID : String := ""
  buttonTitle : String := ""
  deriving Repr, DecidableEq

/-- ListReplyEvent: emitted on an interactive list reply. -/
structure ListReplyEvent where
  base : BaseMessageEvent
  rowID : String := ""
  rowTitle : String := ""
  rowDescription : String := ""
  deriving Repr, DecidableEq

/-- ReactionMessageEvent: emitted on a reaction. -/
structure ReactionMessageEvent where
  base : BaseMessageEvent
  reactedMessageID : String := ""
  emoji : String := ""
  deriving Repr, DecidableEq

/-- MessageStatusEvent: emitted on a message status update. -/
structure MessageStatusEvent where
  messageID : String := ""
  status : String := ""
  timestamp : String := ""
  recipientID : String := ""
  phoneNumber : String := ""
  phoneID : String := ""
  conversationID : String := ""
  conversationType : String := ""
  billable : Bool := false
  pricingCategory : String := ""
  errors : List WebhookError := []
  deriving Repr, DecidableEq

/-- WebhookErrorEvent: emitted on an upstream-reported webhook error. -/
structure WebhookErrorEvent where
  error : WebhookError := {}
  metadata : WebhookMetadata := {}
  deriving Repr, DecidableEq

/-- EventHandlers: which handler slots are registered (a Go field being
non-nil is a `true` flag here; the dispatch trace records exactly the
invocations the source would make). -/
structure EventHandlers where
  onTextMessage : Bool := false
  onImageMessage : Bool := false
  onVideoMessage : Bool := false
  onAudioMessage : Bool := false
  onDocumentMessage : Bool := false
  onStickerMessage : Bool := false
  onLocationMessage : Bool := false
  onContactsMessage : Bool := false
  onButtonReply : Bool := false
  onListReply : Bool := false
  onReactionMessage : Bool := false
  onMessageSent : Bool := false
  onMessageDelivered : Bool := false
  onMessageRead : Bool := false
  onMessageFailed : Bool := false
  onError : Bool := false
  onRawWebhook : Bool := false
  deriving Repr, DecidableEq

/-- One handler invocation, tagged by which handler received it. The
dispatch functions below return the ordered list of invocations the Go
code performs. -/
inductive DispatchEvent where
  | raw (payload : WebhookPayload)
  | text (e : TextMessageEvent)
  | image (e : MediaMessageEvent)
  | video (e : MediaMessageEvent)
  | audio (e : MediaMessageEvent)
  | document (e : DocumentMessageEvent)
  | sticker (e : MediaMessageEvent)
  | location (e : LocationMessageEvent)
  | contacts (e : ContactsMessageEvent)
  | buttonReply (e : ButtonReplyEvent)
  | listReply (e : ListReplyEvent)
  | reaction (e : ReactionMessageEvent)
  | statusSent (e : MessageStatusEvent)
  | statusDelivered (e : MessageStatusEvent)
  | statusRead (e : MessageStatusEvent)
  | statusFailed (e : MessageStatusEvent)
  | webhookError (e : WebhookErrorEvent)
  deriving Repr, DecidableEq

/-- True exactly for invocations of the raw/catch-all handler. -/
def DispatchEvent.isRaw : DispatchEvent → Bool
  | .raw _ => true
  | _ => false

/-- The base message event carried by a per-message invocation, when there
is one (status, error and raw invocations carry none). -/
def DispatchEvent.base? : DispatchEvent → Option BaseMessageEvent
  | .text e => some e.base
  | .image e => some e.base
  | .video e => some e.base
  | .audio e => some e.base
  | .document e => some e.base
  | .sticker e => some e.base
  | .location e => some e.base
  | .contacts e => some e.base
  | .buttonReply e => some e.base
  | .listReply e => some e.base
  | .reaction e => some e.base
  | _ => none

/-- The error list carried by a status invocation, when there is one. -/
def DispatchEvent.statusErrors : DispatchEvent → Option (List WebhookError)
  | .statusSent e => some e.errors
  | .statusDelivered e => some e.errors
  | .statusRead e => some e.errors
  | .statusFailed e => some e.errors
  | _ => none

/-- Replace the contact name carried by a per-message invocation (identity
on raw, status and error invocations, which carry none). -/
def DispatchEvent.withContactName (name : String) : DispatchEvent → DispatchEvent
  | .text e => .text { e with base := { e.base with contactName := name } }
  | .image e => .image { e with base := { e.base with contactName := name } }
  | .video e => .video { e with base := { e.base with contactName := name } }
  | .audio e => .audio { e with base := { e.base with contactName := name } }
  | .document e => .document { e with base := { e.base with contactName := name } }
  | .sticker e => .sticker { e with base := { e.base with contactName := name } }
  | .location e => .location { e with base := { e.base with contactName := name } }
  | .contacts e => .contacts { e with base := { e.base with contactName := name } }
  | .buttonReply e => .buttonReply { e with base := { e.base with contactName := name } }
  | .listReply e => .listReply { e with base := { e.base with contactName := name } }
  | .reaction e => .reaction { e with base := { e.base with contactName := name } }
  | other => other

/-! ## Dispatch pipeline (pkg/webhook/handler.go) -/

/-- Contact lookup in processMessage: a linear scan of the batch's contact
list for the first entry whose wa_id equals the sender; a miss leaves the
display name at Go's zero value, the empty string. -/
def contactNameFor (sender : String) (contacts : List WebhookContact) : String :=
  match contacts.find? (fun c => c.waID == sender) with
  | some contact => contact.profile.name
  | none => ""

/-- The BaseMessageEvent processMessage builds for one incoming message. -/
def mkBaseEvent (msg : IncomingMessage) (value : WebhookValue) : BaseMessageEvent :=
  { messageID := msg.id
    from_ := msg.from_
    timestamp := msg.timestamp
    phoneNumber := value.metadata.displayPhoneNumber
    phoneID := value.metadata.phoneNumberID
    context := msg.context
    contactName := contactNameFor msg.from_ value.contacts }

/-- processMessage: dispatch one incoming message by its declared type to
the matching registered handler; a nil type-specific payload or an
unregistered handler yields no invocation. -/
def processMessage (handlers : EventHandlers) (msg : IncomingMessage)
    (value : WebhookValue) : List DispatchEvent :=
  let baseEvent := mkBaseEvent msg value
  match msg.type with
  | "text" =>
    match msg.text with
    | some t =>
      if handlers.onTextMessage then [.text { base := baseEvent, body := t.body }] else []
    | none => []
  | "image" =>
    match msg.image with
    | some m =>
      if handlers.onImageMessage then
        [.image { base := baseEvent, mediaID := m.id, mimeType := m.mimeType,
                  sha256 := m.sha256, caption := m.caption }]
      else []
    | none => []
  | "video" =>
    match msg.video with
    | some m =>
      if handlers.onVideoMessage then
        [.video { base := baseEvent, mediaID := m.id, mimeType := m.mimeType,
                  sha256 := m.sha256, caption := m.caption }]
      else []
    | none => []
  | "audio" =>
    match msg.audio with
    | some m =>
      if handlers.onAudioMessage then
        [.audio { base := baseEvent, mediaID := m.id, mimeType := m.mimeType,
                  sha256 := m.sha256 }]
      else []
    | none => []
  | "document" =>
    match msg.document with
    | some d =>
      if handlers.onDocumentMessage then
        [.document { base := baseEvent, mediaID := d.id, mimeType := d.mimeType,
                     sha256 := d.sha256, filename := d.filename, caption := d.caption }]
      else []
    | none => []
  | "sticker" =>
    match msg.sticker with
    | some m =>
      if handlers.onStickerMessage then
        [.sticker { base := baseEvent, mediaID := m.id, mimeType := m.mimeType,
                    sha256 := m.sha256 }]
      else []
    | none => []
  | "location" =>
    match msg.location with
    | some loc =>
      if handlers.onLocationMessage then
        [.location { base := baseEvent, latitude := loc.latitude,
                     longitude := loc.longitude, name := loc.name,
                     address := loc.address }]
      else []
    | none => []
  | "contacts" =>
    if handlers.onContactsMessage ∧ msg.contacts.length > 0 then
      [.contacts { base := baseEvent, contacts := msg.contacts }]
    else []
  | "interactive" =>
    match msg.interactive with
    | some i =>
      match i.type with
      | "button_reply" =>
        match i.buttonReply with
        | some br =>
          if handlers.onButtonReply then
            [.buttonReply { base := baseEvent, buttonID := br.id,
                            buttonTitle := br.title }]
          else []
        | none => []
      | "list_reply" =>
        match i.listReply with
        | some lr =>
          if handlers.onListReply then
            [.listReply { base := baseEvent, rowID := lr.id, rowTitle := lr.title,
                          rowDescription := lr.description }]
          else []
        | none => []
      | _ => []
    | none => []
  | "reaction" =>
    match msg.reaction with
    | some r =>
      if handlers.onReactionMessage then
        [.reaction { base := baseEvent, reactedMessageID := r.messageID,
                     emoji := r.emoji }]
      else []
    | none => []
  | _ => []

/-- The MessageStatusEvent processStatus builds before branching on the
status string; its error list starts out empty (Go's zero value). -/
def mkStatusEvent (status : MessageStatusUpdate) (value : WebhookValue) :
    MessageStatusEvent :=
  { messageID := status.id
    status := status.status
    timestamp := status.timestamp
    recipientID := status.recipientID
    phoneNumber := value.metadata.displayPhoneNumber
    phoneID := value.metadata.phoneNumberID
    conversationID := match status.conversation with
      | some c => c.id
      | none => ""
    conversationType := match status.conversation with
      | some c => c.origin.type
      | none => ""
    billable := match status.pricing with
      | some p => p.billable
      | none => false
    pricingCategory := match status.pricing with
      | some p => p.category
      | none => ""
    errors := [] }

/-- processStatus: dispatch one status update to the handler matching its
status string; only the failed branch copies the update's error list onto
the event. -/
def processStatus (handlers : EventHandlers) (status : MessageStatusUpdate)
    (value : WebhookValue) : List DispatchEvent :=
  let event := mkStatusEvent status value
  match status.status with
  | "sent" =>
    if handlers.onMessageSent then [.statusSent event] else []
  | "delivered" =>
    if handlers.onMessageDelivered then [.statusDelivered event] else []
  | "read" =>
    if handlers.onMessageRead then [.statusRead event] else []
  | "failed" =>
    if handlers.onMessageFailed then
      [.statusFailed { event with errors := status.errors }]
    else []
  | _ => []

/-- The body of processPayload's change loop: changes whose field is not
"messages" are skipped; otherwise messages, then statuses, then errors of
the change's value are dispatched in order. -/
def processChange (handlers : EventHandlers) (change : WebhookChange) :
    List DispatchEvent :=
  if change.field ≠ "messages" then []
  else
    let value := change.value
    value.messages.foldr (fun m acc => processMessage handlers m value ++ acc) []
    ++ value.statuses.foldr (fun s acc => processStatus handlers s value ++ acc) []
    ++ value.errors.foldr (fun e acc =>
        (if handlers.onError then
          [DispatchEvent.webhookError { error := e, metadata := value.metadata }]
        else []) ++ acc) []

/-- The entry/change traversal of processPayload, after the raw-handler
call. -/
def traversalEvents (handlers : EventHandlers) (payload : WebhookPayload) :
    List DispatchEvent :=
  payload.entry.foldr
    (fun entry acc =>
      entry.changes.foldr (fun change acc2 => processChange handlers change ++ acc2) []
      ++ acc) []

/-- processPayload: invoke the raw/catch-all handler first when it is
registered, then traverse entries and changes in payload order. -/
def processPayload (handlers : EventHandlers) (payload : WebhookPayload) :
    List DispatchEvent :=
  (if handlers.onRawWebhook then [DispatchEvent.raw payload] else [])
  ++ traversalEvents handlers payload

/-! ## HTTP entry points (pkg/webhook/handler.go) -/

/-- The outcome of one GET verification request. -/
inductive VerificationOutcome where
  | ok (body : String)
  | forbidden
  deriving Repr, DecidableEq

/-- handleVerification: echo the challenge with HTTP 200 iff hub.mode is
"subscribe" and hub.verify_token equals the configured token; otherwise
HTTP 403. A missing query parameter arrives as the empty string
(Go's Query().Get). -/
def handleVerification (verifyToken mode token challenge : String) :
    VerificationOutcome :=
  if mode = "subscribe" ∧ token = verifyToken then .ok challenge
  else .forbidden

/-- The outcome of one POST webhook request: 403 on signature mismatch,
400 on a body that fails to decode, otherwise 200 with the decoded payload
handed to processPayload. -/
inductive WebhookOutcome where
  | forbidden
  | badRequest
  | accepted (payload : WebhookPayload)
  deriving Repr, DecidableEq

/-- handleWebhook: validate the signature when validation is enabled and an
app secret is configured, then decode the body. The JSON decoder is the Go
standard library, passed in here as an oracle from body bytes to an
optional payload. -/
def handleWebhook (validateSig : Bool) (appSecret : List Nat)
    (body signature : List Nat)
    (decode : List Nat → Option WebhookPayload) : WebhookOutcome :=
  if validateSig ∧ appSecret ≠ [] ∧
      verifyWebhookSignature appSecret body signature = false then
    .forbidden
  else
    match decode body with
    | none => .badRequest
    | some payload => .accepted payload

/-- The handler invocations a POST request leads to: none unless the
request was accepted, in which case processPayload runs on the decoded
payload. -/
def webhookDispatched (handlers : EventHandlers) (outcome : WebhookOutcome) :
    List DispatchEvent :=
  match outcome with
  | .accepted payload => processPayload handlers payload
  | _ => []

/-! ## Outbound data model (pkg/models, outbound section) -/

/-- TextContent: text message content. -/
structure TextContent where
  body : String := ""
  previewURL : Bool := false
  deriving Repr, DecidableEq

/-- Context: reply-to context of an outbound message. -/
structure Context where
  messageID : String := ""
  deriving Repr, DecidableEq

/-- MediaContent: media content addressed by uploaded id or by URL. -/
structure MediaContent where
  id : String := ""
  link : String := ""
  caption : String := ""
  deriving Repr, DecidableEq

/-- DocumentContent: document content addressed by uploaded id or by URL. -/
structure DocumentContent where
  id : String := ""
  link : String := ""
  caption : String := ""
  filename : String := ""
  deriving Repr, DecidableEq

/-- ReactionContent: a reaction to a message (empty emoji removes it). -/
structure ReactionContent where
  messageID : String := ""
  emoji : String := ""
  deriving Repr, DecidableEq

/-- CurrencyParam: a currency template parameter, amount in thousandths. -/
structure CurrencyParam where
  fallbackValue : String := ""
  code : String := ""
  amount1000 : Int := 0
  deriving Repr, DecidableEq

/-- DateTimeParam: a date/time template parameter. -/
structure DateTimeParam where
  fallbackValue : String := ""
  deriving Repr, DecidableEq

/-- TemplateParameter: one positional parameter of a template component. -/
structure TemplateParameter where
  type : String := ""
  text : String := ""
  currency : Option CurrencyParam := none
  dateTime : Option DateTimeParam := none
  image : Option MediaContent := none
  document : Option DocumentContent := none
  video : Option MediaContent := none
  payload : String := ""
  deriving Repr, DecidableEq

/-- TemplateComponent: one component (header/body/button) of a template. -/
structure TemplateComponent where
  type : String := ""
  subType : String := ""
  index : String := ""
  parameters : List TemplateParameter := []
  deriving Repr, DecidableEq

/-- TemplateLanguage: template language settings. -/
structure TemplateLanguage where
  code : String := ""
  deriving Repr, DecidableEq

/-- TemplateContent: template name, language and ordered components. -/
structure TemplateContent where
  name : String := ""
  language : TemplateLanguage := {}
  components : List TemplateComponent := []
  deriving Repr, DecidableEq

/-- CTAParameters: the parameters of a call-to-action URL button. -/
structure CTAParameters where
  displayText : String := ""
  url : String := ""
  deriving Repr, DecidableEq

/-- InteractiveButton: one reply button of an interactive message. -/
structure InteractiveButton where
  type : String := ""
  reply : InteractiveReply := {}
  deriving Repr, DecidableEq

/-- InteractiveRow: one row in a list section. -/
structure InteractiveRow where
  id : String := ""
  title : String := ""
  description : String := ""
  deriving Repr, DecidableEq

/-- InteractiveSection: one section of a list message. -/
structure InteractiveSection where
  title : String := ""
  rows : List InteractiveRow := []
  deriving Repr, DecidableEq

/-- InteractiveHeader: the header of an interactive message. -/
structure InteractiveHeader where
  type : String := ""
  text : String := ""
  image : Option MediaContent := none
  video : Option MediaContent := none
  document : Option MediaContent := none
  deriving Repr, DecidableEq

/-- InteractiveBody: the body of an interactive message. -/
structure InteractiveBody where
  text : String := ""
  deriving Repr, DecidableEq

/-- InteractiveFooter: the footer of an interactive message. -/
structure InteractiveFooter where
  text : String := ""
  deriving Repr, DecidableEq

/-- InteractiveAction: the action of an interactive message; which fields
are meaningful depends on the interactive type. -/
structure InteractiveAction where
  buttons : List InteractiveButton := []
  button : String := ""
  sections : List InteractiveSection := []
  name : String := ""
  parameters : Option CTAParameters := none
  catalogID : String := ""
  productRetailerID : String := ""
  deriving Repr, DecidableEq

/-- InteractiveContent: interactive message content with its type tag. -/
structure InteractiveContent where
  type : String := ""
  header : Option InteractiveHeader := none
  body : InteractiveBody := {}
  footer : Option InteractiveFooter := none
  action : InteractiveAction := {}
  deriving Repr, DecidableEq

/-- MessageRequest: the base structure for sending messages; only the
content field matching `type` should be set (a caller contract, not
enforced by the transport). -/
structure MessageRequest where
  messagingProduct : String := ""
  recipientType : String := ""
  to_ : String := ""
  type : String := ""
  context : Option Context := none
  text : Option TextContent := none
  image : Option MediaContent := none
  audio : Option MediaContent := none
  video : Option MediaContent := none
  document : Option DocumentContent := none
  sticker : Option MediaContent := none
  location : Option LocationContent := none
  contacts : List ContactContent := []
  interactive : Option InteractiveContent := none
  template : Option TemplateContent := none
  reaction : Option ReactionContent := none
  deriving Repr, DecidableEq

/-! ## Outbound send operations (pkg/client/messages.go) -/

/-- The observable outcome of one send operation: either a local
ValidationError tagged with the offending field (no network call is made),
or the fully constructed request handed to the authenticated POST. The
network round-trip itself is an external collaborator and is not modelled
past the handoff. -/
inductive SendOutcome where
  | validationError (field message : String)
  | sent (req : MessageRequest)
  deriving Repr, DecidableEq

/-- True when the outcome is a local validation error. -/
def SendOutcome.isValidationError : SendOutcome → Bool
  | .validationError _ _ => true
  | .sent _ => false

/-- True when the request reached the network layer. -/
def SendOutcome.isSent : SendOutcome → Bool
  | .sent _ => true
  | .validationError _ _ => false

/-- sendMessage: the shared gate every send operation funnels through; an
empty recipient is rejected before the POST. -/
def sendMessage (req : MessageRequest) : SendOutcome :=
  if req.to_ = "" then .validationError "to" "recipient phone number is required"
  else .sent req

/-- SendText: validate recipient and body, then construct and send a text
request. -/
def sendText (to_ body : String) (previewURL : Bool) : SendOutcome :=
  if to_ = "" then .validationError "to" "recipient phone number is required"
  else if body = "" then .validationError "body" "message body is required"
  else
    sendMessage
      { messagingProduct := "whatsapp"
        recipientType := "individual"
        to_ := to_
        type := "text"
        text := some { body := body, previewURL := previewURL } }

/-- SendLocation: reject a nil location and the all-zero coordinate pair,
then construct and send a location request. -/
def sendLocation (to_ : String) (location : Option LocationContent) : SendOutcome :=
  match location with
  | none => .validationError "location" "location content is required"
  | some loc =>
    if loc.latitude = 0 ∧ loc.longitude = 0 then
      .validationError "location" "latitude and longitude are required"
    else
      sendMessage
        { messagingProduct := "whatsapp"
          recipientType := "individual"
          to_ := to_
          type := "location"
          location := some loc }

/-- InteractiveOptions: optional header and footer of an interactive send. -/
structure InteractiveOptions where
  header : Option InteractiveHeader := none
  footer : String := ""
  deriving Repr, DecidableEq

/-- The opts block shared by the interactive send operations: copy a
supplied header, and a non-empty footer string, onto the content. -/
def applyInteractiveOptions (content : InteractiveContent)
    (opts : Option InteractiveOptions) : InteractiveContent :=
  match opts with
  | none => content
  | some o =>
    let content' := match o.header with
      | some hd => { content with header := some hd }
      | none => content
    if o.footer ≠ "" then { content' with footer := some { text := o.footer } }
    else content'

/-- SendInteractiveButtons: require between one and three buttons, then
construct and send a button-interactive request. -/
def sendInteractiveButtons (to_ bodyText : String)
    (buttons : List InteractiveButton) (opts : Option InteractiveOptions) :
    SendOutcome :=
  if buttons = [] then .validationError "buttons" "at least one button is required"
  else if buttons.length > 3 then .validationError "buttons" "maximum 3 buttons allowed"
  else
    let interactive : InteractiveContent :=
      { type := "button"
        body := { text := bodyText }
        action := { buttons := buttons } }
    sendMessage
      { messagingProduct := "whatsapp"
        recipientType := "individual"
        to_ := to_
        type := "interactive"
        interactive := some (applyInteractiveOptions interactive opts) }

/-- SendInteractiveList: require a non-empty section list and non-empty
button text, then construct and send a list-interactive request. No check
inspects the rows of any section. -/
def sendInteractiveList (to_ bodyText buttonText : String)
    (sections : List InteractiveSection) (opts : Option InteractiveOptions) :
    SendOutcome :=
  if sections = [] then .validationError "sections" "at least one section is required"
  else if buttonText = "" then .validationError "buttonText" "button text is required"
  else
    let interactive : InteractiveContent :=
      { type := "list"
        body := { text := bodyText }
        action := { button := buttonText, sections := sections } }
    sendMessage
      { messagingProduct := "whatsapp"
        recipientType := "individual"
        to_ := to_
        type := "interactive"
        interactive := some (applyInteractiveOptions interactive opts) }

/-! ## Statement vocabulary -/

/-- The condition "the message's declared type has a nil/absent
type-specific payload": for each dispatchable type, the payload field the
dispatcher would read is missing (for `contacts`, the list is empty; for
`interactive`, either the whole payload or the reply field matching its
inner type is missing). -/
def typePayloadMissing (m : IncomingMessage) : Bool :=
  match m.type with
  | "text" => m.text.isNone
  | "image" => m.image.isNone
  | "video" => m.video.isNone
  | "audio" => m.audio.isNone
  | "document" => m.document.isNone
  | "sticker" => m.sticker.isNone
  | "location" => m.location.isNone
  | "contacts" => m.contacts.isEmpty
  | "interactive" =>
    match m.interactive with
    | none => true
    | some i =>
      match i.type with
      | "button_reply" => i.buttonReply.isNone
      | "list_reply" => i.listReply.isNone
      | _ => false
  | "reaction" => m.reaction.isNone
  | _ => false

/-! ## Helper lemmas -/

/-- Membership in a foldr that appends one list per element. -/
lemma mem_foldr_append {α β : Type} (f : β → List α) (l : List β) (x : α) :
    x ∈ l.foldr (fun b acc => f b ++ acc) [] ↔ ∃ b ∈ l, x ∈ f b := by
  induction l with
  | nil => simp
  | cons b rest ih => simp [List.foldr_cons, List.mem_append, ih]

/-- Every invocation processMessage emits carries the base event built for
that message. -/
lemma processMessage_base (handlers : EventHandlers) (m : IncomingMessage)
    (value : WebhookValue) :
    ∀ e ∈ processMessage handlers m value, e.base? = some (mkBaseEvent m value) := by
  intro e he
  unfold processMessage at he
  repeat' split at he
  all_goals simp_all [DispatchEvent.base?]

/-- The base events built for the same message over two contact lists agree
except in the resolved contact name. -/
lemma mkBaseEvent_contacts (m : IncomingMessage) (value : WebhookValue)
    (cs : List WebhookContact) :
    mkBaseEvent m { value with contacts := cs } =
      { mkBaseEvent m value with contactName := contactNameFor m.from_ cs } := rfl

/-- The contact list influences dispatch only through the contact name:
over any replacement contact list, processMessage emits the same
invocations in the same order, with only the resolved name substituted.
In particular no choice of contact list — matching or not — suppresses a
dispatch. -/
lemma processMessage_contacts_invariant (handlers : EventHandlers)
    (m : IncomingMessage) (value : WebhookValue) (cs : List WebhookContact) :
    processMessage handlers m { value with contacts := cs } =
      (processMessage handlers m value).map
        (DispatchEvent.withContactName (contactNameFor m.from_ cs)) := by
  unfold processMessage
  repeat' split
  all_goals simp_all [DispatchEvent.withContactName, mkBaseEvent_contacts]

/-- processMessage never invokes the raw handler. -/
lemma processMessage_no_raw (handlers : EventHandlers) (m : IncomingMessage)
    (value : WebhookValue) :
    ∀ e ∈ processMessage handlers m value, e.isRaw = false := by
  intro e he
  have hb := processMessage_base handlers m value e he
  cases e <;> simp_all [DispatchEvent.base?, DispatchEvent.isRaw]

/-- processStatus never invokes the raw handler. -/
lemma processStatus_no_raw (handlers : EventHandlers) (s : MessageStatusUpdate)
    (value : WebhookValue) :
    ∀ e ∈ processStatus handlers s value, e.isRaw = false := by
  intro e he
  unfold processStatus at he
  repeat' split at he
  all_goals simp_all [DispatchEvent.isRaw]

/-- The change loop never invokes the raw handler. -/
lemma processChange_no_raw (handlers : EventHandlers) (c : WebhookChange) :
    ∀ e ∈ processChange handlers c, e.isRaw = false := by
  intro e he
  unfold processChange at he
  split at he
  · simp at he
  · rcases List.mem_append.mp he with h1 | h2
    · rcases List.mem_append.mp h1 with h3 | h4
      · obtain ⟨m, _, hm⟩ := (mem_foldr_append _ _ _).mp h3
        exact processMessage_no_raw handlers m c.value e hm
      · obtain ⟨s, _, hs⟩ := (mem_foldr_append _ _ _).mp h4
        exact processStatus_no_raw handlers s c.value e hs
    · obtain ⟨err, _, herr⟩ := (mem_foldr_append _ _ _).mp h2
      split at herr <;> simp_all [DispatchEvent.isRaw]

/-- The entry/change traversal never invokes the raw handler. -/
lemma traversalEvents_no_raw (handlers : EventHandlers) (payload : WebhookPayload) :
    ∀ e ∈ traversalEvents handlers payload, e.isRaw = false := by
  intro e he
  unfold traversalEvents at he
  obtain ⟨en, _, he2⟩ := (mem_foldr_append _ _ _).mp he
  obtain ⟨c, _, he3⟩ := (mem_foldr_append _ _ _).mp he2
  exact processChange_no_raw handlers c e he3

/-- A change whose field is not "messages" is skipped outright. -/
lemma processChange_of_field_ne (handlers : EventHandlers) (c : WebhookChange)
    (hf : c.field ≠ "messages") : processChange handlers c = [] := by
  simp [processChange, hf]

/-- When no change in the payload carries field "messages", the traversal
dispatches nothing. -/
lemma traversalEvents_eq_nil (handlers : EventHandlers) (payload : WebhookPayload)
    (hall : ∀ en ∈ payload.entry, ∀ c ∈ en.changes, c.field ≠ "messages") :
    traversalEvents handlers payload = [] := by
  unfold traversalEvents
  rw [List.eq_nil_iff_forall_not_mem]
  intro e he
  obtain ⟨en, hen, he2⟩ := (mem_foldr_append _ _ _).mp he
  obtain ⟨c, hc, he3⟩ := (mem_foldr_append _ _ _).mp he2
  rw [processChange_of_field_ne handlers c (hall en hen c hc)] at he3
  simp at he3

/-! ## Claim theorems -/

/-- C2: a GET verification request is answered 200 with the hub.challenge
value echoed verbatim iff hub.mode equals "subscribe" and hub.verify_token
exactly equals the configured verify token; every other combination of
mode and token (wrong mode, wrong token, or missing parameters, which
arrive as empty strings) is answered 403. -/
theorem verification_handshake (verifyToken mode token challenge : String) :
    (handleVerification verifyToken mode token challenge = .ok challenge ↔
      mode = "subscribe" ∧ token = verifyToken) ∧
    (∀ body, handleVerification verifyToken mode token challenge = .ok body →
      body = challenge) ∧
    (¬(mode = "subscribe" ∧ token = verifyToken) →
      handleVerification verifyToken mode token challenge = .forbidden) := by
  unfold handleVerification
  by_cases h : mode = "subscribe" ∧ token = verifyToken <;> simp [h]

/-- C2 witness: the handshake theorem at a concrete accepted request. -/
theorem verification_handshake_witness :
    (handleVerification "tok" "subscribe" "tok" "chal" = .ok "chal" ↔
      "subscribe" = "subscribe" ∧ "tok" = "tok") ∧
    (∀ body, handleVerification "tok" "subscribe" "tok" "chal" = .ok body →
      body = "chal") ∧
    (¬("subscribe" = "subscribe" ∧ "tok" = "tok") →
      handleVerification "tok" "subscribe" "tok" "chal" = .forbidden) :=
  verification_handshake "tok" "subscribe" "tok" "chal"

/-- C9: SendText rejects an empty recipient with a ValidationError on field
"to" and an empty body with a ValidationError on field "body" (the
recipient check runs first); with both fields non-empty the constructed
text request reaches the network layer. A validation error means no
network call: the outcome is the error, never a sent request. -/
theorem send_text_validation (to_ body : String) (previewURL : Bool) :
    (to_ = "" → sendText to_ body previewURL =
      .validationError "to" "recipient phone number is required") ∧
    (to_ ≠ "" → body = "" → sendText to_ body previewURL =
      .validationError "body" "message body is required") ∧
    (to_ ≠ "" → body ≠ "" → sendText to_ body previewURL =
      .sent { messagingProduct := "whatsapp", recipientType := "individual",
              to_ := to_, type := "text",
              text := some { body := body, previewURL := previewURL } }) := by
  unfold sendText sendMessage
  by_cases h1 : to_ = "" <;> by_cases h2 : body = "" <;> simp [h1, h2]

/-- C9 witness: an empty recipient is rejected on field "to". -/
theorem send_text_validation_witness :
    ("" : String) = "" ∧
    sendText "" "hello" false =
      .validationError "to" "recipient phone number is required" :=
  ⟨rfl, (send_text_validation "" "hello" false).1 rfl⟩

/-- C10: SendLocation rejects every location whose latitude and longitude
are both exactly zero — including the legitimate coordinate (0, 0) — with
a ValidationError on field "location" and no network call; a location with
either coordinate non-zero passes the check, and (with a non-empty
recipient) the constructed location request reaches the network layer. -/
theorem location_zero_coordinates (to_ : String) (loc : LocationContent) :
    (loc.latitude = 0 → loc.longitude = 0 →
      sendLocation to_ (some loc) =
        .validationError "location" "latitude and longitude are required") ∧
    ((loc.latitude ≠ 0 ∨ loc.longitude ≠ 0) → to_ ≠ "" →
      sendLocation to_ (some loc) =
        .sent { messagingProduct := "whatsapp", recipientType := "individual",
                to_ := to_, type := "location", location := some loc }) := by
  unfold sendLocation sendMessage
  constructor
  · intro h1 h2
    simp [h1, h2]
  · intro h hto
    have hne : ¬(loc.latitude = 0 ∧ loc.longitude = 0) := by tauto
    simp [hne, hto]

/-- C10 witness: the origin coordinate (0, 0) is rejected. -/
theorem location_zero_coordinates_witness :
    ({ latitude := 0, longitude := 0 } : LocationContent).latitude = 0 ∧
    sendLocation "15551234567" (some { latitude := 0, longitude := 0 }) =
      .validationError "location" "latitude and longitude are required" :=
  ⟨rfl, (location_zero_coordinates "15551234567" _).1 rfl rfl⟩

/-- C8: SendInteractiveButtons returns a ValidationError before any network
call when given zero buttons or more than three; with one to three buttons
(and a non-empty recipient, checked by the shared sendMessage gate) the
button-interactive request is constructed and reaches the network layer. -/
theorem interactive_buttons_count (to_ bodyText : String)
    (buttons : List InteractiveButton) (opts : Option InteractiveOptions) :
    (buttons = [] → sendInteractiveButtons to_ bodyText buttons opts =
      .validationError "buttons" "at least one button is required") ∧
    (buttons.length > 3 → sendInteractiveButtons to_ bodyText buttons opts =
      .validationError "buttons" "maximum 3 buttons allowed") ∧
    (buttons ≠ [] → buttons.length ≤ 3 → to_ ≠ "" →
      sendInteractiveButtons to_ bodyText buttons opts =
        .sent { messagingProduct := "whatsapp", recipientType := "individual",
                to_ := to_, type := "interactive",
                interactive := some (applyInteractiveOptions
                  { type := "button", body := { text := bodyText },
                    action := { buttons := buttons } } opts) }) := by
  unfold sendInteractiveButtons sendMessage
  refine ⟨fun h => by simp [h], fun h => ?_, fun h1 h2 h3 => ?_⟩
  · have hne : buttons ≠ [] := by
      intro he
      rw [he] at h
      simp at h
    simp [hne, h]
  · have hle : ¬buttons.length > 3 := by omega
    simp [h1, hle, h3]

/-- C8 witness: four buttons are rejected before any network call. -/
theorem interactive_buttons_count_witness :
    ([({} : InteractiveButton), {}, {}, {}].length > 3) ∧
    sendInteractiveButtons "15551234567" "pick" [{}, {}, {}, {}] none =
      .validationError "buttons" "maximum 3 buttons allowed" :=
  ⟨by decide,
   (interactive_buttons_count "15551234567" "pick" [{}, {}, {}, {}] none).2.1
     (by decide)⟩

/-- C4 counterexample: a sections argument containing one section with zero
rows violates the claimed required shape ("each section with at least one
row"), yet SendInteractiveList returns no ValidationError — the request is
constructed and handed to the network layer. -/
theorem interactive_list_zero_rows_sent :
    (sendInteractiveList "15551234567" "pick one" "Open"
        [{ title := "empty section", rows := [] }] none).isValidationError = false ∧
    (sendInteractiveList "15551234567" "pick one" "Open"
        [{ title := "empty section", rows := [] }] none).isSent = true := by
  constructor <;> rfl

/-- C4 (amended): SendInteractiveList validates only that the sections list
itself is non-empty and that the list's button text is non-empty — a
section with zero rows is not rejected. With at least one section,
non-empty button text and a non-empty recipient, the list-interactive
request is constructed and reaches the network layer. -/
theorem interactive_list_validation (to_ bodyText buttonText : String)
    (sections : List InteractiveSection) (opts : Option InteractiveOptions) :
    (sections = [] → sendInteractiveList to_ bodyText buttonText sections opts =
      .validationError "sections" "at least one section is required") ∧
    (sections ≠ [] → buttonText = "" →
      sendInteractiveList to_ bodyText buttonText sections opts =
        .validationError "buttonText" "button text is required") ∧
    (sections ≠ [] → buttonText ≠ "" → to_ ≠ "" →
      sendInteractiveList to_ bodyText buttonText sections opts =
        .sent { messagingProduct := "whatsapp", recipientType := "individual",
                to_ := to_, type := "interactive",
                interactive := some (applyInteractiveOptions
                  { type := "list", body := { text := bodyText },
                    action := { button := buttonText, sections := sections } }
                  opts) }) := by
  unfold sendInteractiveList sendMessage
  refine ⟨fun h => by simp [h], fun h1 h2 => by simp [h1, h2],
    fun h1 h2 h3 => by simp [h1, h2, h3]⟩

/-- C4 amended witness: one section with one row, sent. -/
theorem interactive_list_validation_witness :
    ([({ rows := [{ id := "r1", title := "Row" }] } : InteractiveSection)] ≠ []) ∧
    sendInteractiveList "15551234567" "pick one" "Open"
        [{ rows := [{ id := "r1", title := "Row" }] }] none =
      .sent { messagingProduct := "whatsapp", recipientType := "individual",
              to_ := "15551234567", type := "interactive",
              interactive := some (applyInteractiveOptions
                { type := "list", body := { text := "pick one" },
                  action := { button := "Open",
                              sections := [{ rows := [{ id := "r1", title := "Row" }] }] } }
                none) } :=
  ⟨by decide,
   (interactive_list_validation "15551234567" "pick one" "Open"
       [{ rows := [{ id := "r1", title := "Row" }] }] none).2.2
     (by decide) (by decide) (by decide)⟩

/-- C1: with signature validation enabled and a non-empty app secret, a POST
webhook whose body decodes is accepted — and its payload dispatched —
exactly when the supplied signature header, after stripping a literal
"sha256=" prefix if present, equals the lowercase hex encoding of
HMAC-SHA256(body, app secret); on any mismatch the handler answers
HTTP 403 and no registered callback is invoked. -/
theorem webhook_signature_gate (appSecret body signature : List Nat)
    (decode : List Nat → Option WebhookPayload) (payload : WebhookPayload)
    (hsecret : appSecret ≠ []) (hdecode : decode body = some payload) :
    (handleWebhook true appSecret body signature decode = .accepted payload ↔
      normalizeSignature signature = hexEncode (hmacSha256 appSecret body)) ∧
    (normalizeSignature signature = hexEncode (hmacSha256 appSecret body) →
      ∀ handlers, webhookDispatched handlers
          (handleWebhook true appSecret body signature decode) =
        processPayload handlers payload) ∧
    (normalizeSignature signature ≠ hexEncode (hmacSha256 appSecret body) →
      handleWebhook true appSecret body signature decode = .forbidden ∧
      ∀ handlers, webhookDispatched handlers
          (handleWebhook true appSecret body signature decode) = []) := by
  unfold handleWebhook verifyWebhookSignature
  by_cases hsig : normalizeSignature signature = hexEncode (hmacSha256 appSecret body)
  · simp [hsecret, hsig, hdecode, webhookDispatched]
  · simp [hsecret, hsig, hdecode, webhookDispatched]

/-- C1 witness: the gate theorem at a concrete secret, body and signature. -/
theorem webhook_signature_gate_witness :
    ([1] : List Nat) ≠ [] ∧
    (handleWebhook true [1] [] [] (fun _ => some {}) = .accepted {} ↔
      normalizeSignature [] = hexEncode (hmacSha256 [1] [])) :=
  ⟨by decide,
   (webhook_signature_gate [1] [] [] (fun _ => some {}) {} (by decide) rfl).1⟩

/-- C6: a status update with status "failed" invokes exactly the registered
failed-status handler (never the sent/delivered/read handlers), and the
event it receives carries the update's error list; for every other status
the dispatched event's error list is left empty. -/
theorem failed_status_dispatch (handlers : EventHandlers)
    (status : MessageStatusUpdate) (value : WebhookValue) :
    (status.status = "failed" →
      processStatus handlers status value =
        (if handlers.onMessageFailed then
          [.statusFailed { mkStatusEvent status value with errors := status.errors }]
        else [])) ∧
    (status.status ≠ "failed" →
      ∀ e ∈ processStatus handlers status value, e.statusErrors = some []) := by
  constructor
  · intro h
    simp [processStatus, h]
  · intro h e he
    unfold processStatus at he
    split at he
    all_goals simp_all [DispatchEvent.statusErrors, mkStatusEvent]

/-- C6 witness: a concrete failed update reaches only the failed handler
with its error list attached. -/
theorem failed_status_dispatch_witness :
    ({ status := "failed",
       errors := [{ code := 131026, title := "Undeliverable" }] } :
        MessageStatusUpdate).status = "failed" ∧
    processStatus { onMessageFailed := true }
        { status := "failed", errors := [{ code := 131026, title := "Undeliverable" }] }
        {} =
      (if ({ onMessageFailed := true } : EventHandlers).onMessageFailed then
        [.statusFailed
          { mkStatusEvent
              { status := "failed",
                errors := [{ code := 131026, title := "Undeliverable" }] } {} with
            errors := ({ status := "failed",
                         errors := [{ code := 131026, title := "Undeliverable" }] } :
                        MessageStatusUpdate).errors }]
      else []) :=
  ⟨rfl, (failed_status_dispatch { onMessageFailed := true } _ {}).1 rfl⟩

/-- C5: an incoming message whose declared type has a nil/absent
type-specific payload is silently skipped: dispatch performs zero handler
invocations for it, raises nothing and constructs no event, regardless of
which handlers are registered. -/
theorem nil_payload_silent_skip (handlers : EventHandlers) (m : IncomingMessage)
    (value : WebhookValue) (h : typePayloadMissing m = true) :
    processMessage handlers m value = [] := by
  unfold typePayloadMissing at h
  unfold processMessage
  split at h
  all_goals first
    | (simp_all [Option.isNone_iff_eq_none, List.isEmpty_iff]; done)
    | (rename_i heq
       rcases hint : m.interactive with _ | i
       · simp_all
       · simp only [hint] at h
         simp [heq, hint]
         split at h <;> simp_all [Option.isNone_iff_eq_none])

/-- C5 witness: a message declared "text" with no text payload dispatches
nothing even with every handler registered. -/
theorem nil_payload_silent_skip_witness :
    typePayloadMissing { type := "text", text := none } = true ∧
    processMessage
      { onTextMessage := true, onImageMessage := true, onVideoMessage := true,
        onAudioMessage := true, onDocumentMessage := true, onStickerMessage := true,
        onLocationMessage := true, onContactsMessage := true, onButtonReply := true,
        onListReply := true, onReactionMessage := true, onRawWebhook := true }
      { type := "text", text := none } {} = [] :=
  ⟨by decide, nil_payload_silent_skip _ _ _ (by decide)⟩

/-- C7: every event processMessage dispatches carries the contact name
resolved by a first-match linear scan of the batch's contact list: the
matching contact's profile name, or the empty string when no contact's
wa_id equals the sender. The contact list influences dispatch only through
that name: over any replacement contact list — for every message type and
handler set — the same invocations are emitted in the same order with only
the name substituted, so a lookup miss never suppresses an event; on a
miss, dispatch is exactly dispatch over the empty contact list, whose
events all carry the empty name. -/
theorem contact_name_resolution (handlers : EventHandlers) (m : IncomingMessage)
    (value : WebhookValue) :
    (∀ e ∈ processMessage handlers m value, ∀ b, e.base? = some b →
      b.contactName = contactNameFor m.from_ value.contacts) ∧
    ((∀ c ∈ value.contacts, c.waID ≠ m.from_) →
      contactNameFor m.from_ value.contacts = "") ∧
    (∀ c, value.contacts.find? (fun c2 => c2.waID == m.from_) = some c →
      contactNameFor m.from_ value.contacts = c.profile.name) ∧
    (∀ cs, processMessage handlers m { value with contacts := cs } =
      (processMessage handlers m value).map
        (DispatchEvent.withContactName (contactNameFor m.from_ cs))) ∧
    ((∀ c ∈ value.contacts, c.waID ≠ m.from_) →
      processMessage handlers m value =
        (processMessage handlers m { value with contacts := [] }).map
          (DispatchEvent.withContactName "")) := by
  have hmissName : (∀ c ∈ value.contacts, c.waID ≠ m.from_) →
      contactNameFor m.from_ value.contacts = "" := by
    intro hmiss
    have hfind : value.contacts.find? (fun c => c.waID == m.from_) = none :=
      List.find?_eq_none.mpr (fun c hc => by simpa using hmiss c hc)
    simp [contactNameFor, hfind]
  refine ⟨?_, hmissName, ?_, ?_, ?_⟩
  · intro e he b hb
    have := processMessage_base handlers m value e he
    rw [this] at hb
    cases hb
    rfl
  · intro c hc
    simp [contactNameFor, hc]
  · intro cs
    exact processMessage_contacts_invariant handlers m value cs
  · intro hmiss
    have h4 := processMessage_contacts_invariant handlers m
      { value with contacts := [] } value.contacts
    rw [hmissName hmiss] at h4
    exact h4

/-- C7 witness: a sender with no matching contact resolves to the empty
name, and a concrete image message from that unknown sender is still
dispatched — its trace is exactly the empty-contact-list trace with empty
names. -/
theorem contact_name_resolution_witness :
    (∀ c ∈ ({ contacts := [{ waID := "123", profile := { name := "Alice" } }] } :
        WebhookValue).contacts, c.waID ≠ "999") ∧
    contactNameFor "999"
      ({ contacts := [{ waID := "123", profile := { name := "Alice" } }] } :
        WebhookValue).contacts = "" ∧
    processMessage { onImageMessage := true }
        { from_ := "999", type := "image",
          image := some { id := "m1", mimeType := "image/jpeg" } }
        { contacts := [{ waID := "123", profile := { name := "Alice" } }] } =
      (processMessage { onImageMessage := true }
          { from_ := "999", type := "image",
            image := some { id := "m1", mimeType := "image/jpeg" } } {}).map
        (DispatchEvent.withContactName "") :=
  ⟨by decide,
   (contact_name_resolution {} { from_ := "999" }
       { contacts := [{ waID := "123", profile := { name := "Alice" } }] }).2.1
     (by decide),
   (contact_name_resolution { onImageMessage := true }
       { from_ := "999", type := "image",
         image := some { id := "m1", mimeType := "image/jpeg" } }
       { contacts := [{ waID := "123", profile := { name := "Alice" } }] }).2.2.2.2
     (by decide)⟩

/-- C3: when a raw/catch-all handler is registered, processPayload invokes
it exactly once, as the very first invocation, before any entry/change
traversal — in particular it still fires when no change in the payload has
field "messages", in which case it is the only invocation. -/
theorem raw_handler_before_traversal (handlers : EventHandlers)
    (payload : WebhookPayload) (hreg : handlers.onRawWebhook = true) :
    processPayload handlers payload =
      DispatchEvent.raw payload :: traversalEvents handlers payload ∧
    (processPayload handlers payload).countP DispatchEvent.isRaw = 1 ∧
    ((∀ entry ∈ payload.entry, ∀ change ∈ entry.changes,
        change.field ≠ "messages") →
      processPayload handlers payload = [DispatchEvent.raw payload]) := by
  have hshape : processPayload handlers payload =
      DispatchEvent.raw payload :: traversalEvents handlers payload := by
    simp [processPayload, hreg]
  refine ⟨hshape, ?_, ?_⟩
  · rw [hshape, List.countP_cons]
    have h0 : (traversalEvents handlers payload).countP DispatchEvent.isRaw = 0 :=
      List.countP_eq_zero.mpr
        (fun e he => by simp [traversalEvents_no_raw handlers payload e he])
    simp [h0, DispatchEvent.isRaw]
  · intro hall
    rw [hshape, traversalEvents_eq_nil handlers payload hall]

/-- C3 witness: a payload whose only change has field "statuses" still
triggers the raw handler, and nothing else. -/
theorem raw_handler_before_traversal_witness :
    ({ onRawWebhook := true } : EventHandlers).onRawWebhook = true ∧
    processPayload { onRawWebhook := true }
        { entry := [{ id := "1", changes := [{ field := "statuses" }] }] } =
      DispatchEvent.raw
          { entry := [{ id := "1", changes := [{ field := "statuses" }] }] } ::
        traversalEvents { onRawWebhook := true }
          { entry := [{ id := "1", changes := [{ field := "statuses" }] }] } :=
  ⟨rfl, (raw_handler_before_traversal _ _ rfl).1⟩

end GoWhatsapp
